import Mathlib

/-!
# sion_digitale: the contact form server (`main.go`)

A shallow embedding of `homeHandler`, `contactHandler` and `renderTemplate`.

Modelling conventions.

* A Go `string` is a `List Char`: the sequence of its Unicode code points.
* The Go `map[string]string` of field errors is an association list with unique keys
  (`ErrorMap`); a `nil` map and an empty map are both the empty list.
* A handler writes to its `http.ResponseWriter` and reads the file system.  What it does is
  recorded as the list of calls it makes, in order (`Event`).  The results of `os.Stat`,
  `template.ParseFiles` and `Template.Execute` are inputs (`TemplateEnv`).
* What the calls leave in the `http.ResponseWriter` is a `Response`: the status, fixed by the
  first `WriteHeader` or `Write`, the `Location` header and the body (`respond`).
* Functions of the Go standard library (`strings.TrimSpace`, `strings.Contains`,
  `strings.ReplaceAll`, `fmt.Sprintf`, `filepath.Join`, `url.Values.Get`) are modelled after
  their documented behaviour, restricted to what `main.go` uses of them.
-/

set_option maxRecDepth 8000

namespace SionDigitale

/-! ## Go standard library -/

/-- Go `unicode.IsSpace`: the Latin-1 spaces `\t \n \v \f \r`, space, U+0085, U+00A0, and
beyond Latin-1 the code points of the `White_Space` table. -/
def isSpace (c : Char) : Bool :=
  let r := c.toNat
  if r ≤ 0xFF then
    r == 0x09 || r == 0x0A || r == 0x0B || r == 0x0C || r == 0x0D || r == 0x20
      || r == 0x85 || r == 0xA0
  else
    r == 0x1680 || (0x2000 ≤ r && r ≤ 0x200A) || r == 0x2028 || r == 0x2029
      || r == 0x202F || r == 0x205F || r == 0x3000

/-- Go `strings.TrimSpace`: all leading and trailing white space removed
(`TrimRightFunc (TrimLeftFunc s IsSpace) IsSpace`). -/
def TrimSpace (s : List Char) : List Char :=
  (s.dropWhile isSpace).rdropWhile isSpace

/-- Go `strings.Contains s substr`: `substr` occurs in `s` at some position. -/
def Contains : List Char → List Char → Bool
  | [], substr => substr.isPrefixOf []
  | c :: cs, substr => substr.isPrefixOf (c :: cs) || Contains cs substr

/-- The scan of `strings.Replace` for a non-empty `old`: left to right, each occurrence of
`old` found at the current position is replaced by `new` and the scan resumes after it
(`skip` counts the characters of a replaced occurrence still to be passed over). -/
def replaceFrom (old new : List Char) : Nat → List Char → List Char
  | _, [] => []
  | skip + 1, _ :: cs => replaceFrom old new skip cs
  | 0, c :: cs =>
    if old.isPrefixOf (c :: cs) then new ++ replaceFrom old new (old.length - 1) cs
    else c :: replaceFrom old new 0 cs

/-- Go `strings.ReplaceAll s old new`: every non-overlapping instance of `old` replaced by
`new`; an empty `old` matches at the beginning of the string and after each code point. -/
def ReplaceAll (s old new : List Char) : List Char :=
  if old = new then s
  else if old = [] then new ++ s.flatMap (fun c => c :: new)
  else replaceFrom old new 0 s

/-- Go `fmt.Sprintf` for the verbs `main.go` uses, on string operands: `%%` prints a percent
sign, `%s` and `%v` print the next operand (the text of an `error` for `%v`), and a character
outside a verb is copied.  A missing operand prints as `%!s(MISSING)` and a lone final `%` as
`%!(NOVERB)`, as in Go.  Other verbs and operands left over do not occur in `main.go`: here a
verb that is not known is copied and operands left over are dropped. -/
def Sprintf : List Char → List (List Char) → List Char
  | [], _ => []
  | c :: rest, args =>
    if c = '%' then
      match rest, args with
      | [], _ => "%!(NOVERB)".toList
      | v :: rest', args =>
        if v = '%' then '%' :: Sprintf rest' args
        else if v = 's' ∨ v = 'v' then
          match args with
          | a :: args' => a ++ Sprintf rest' args'
          | [] => '%' :: '!' :: v :: "(MISSING)".toList ++ Sprintf rest' []
        else c :: v :: Sprintf rest' args
    else c :: Sprintf rest args

/-- Go `filepath.Join` with the separator `/`, on elements that are already clean: the
non-empty elements joined by the separator. -/
def filepathJoin (elem : List (List Char)) : List Char :=
  List.intercalate ['/'] (elem.filter (fun e => e ≠ []))

/-- The bytes of the UTF-8 encoding of a code point. -/
def utf8Bytes (c : Char) : List Nat :=
  let r := c.toNat
  if r < 0x80 then [r]
  else if r < 0x800 then [0xC0 + r / 0x40, 0x80 + r % 0x40]
  else if r < 0x10000 then [0xE0 + r / 0x1000, 0x80 + r / 0x40 % 0x40, 0x80 + r % 0x40]
  else [0xF0 + r / 0x40000, 0x80 + r / 0x1000 % 0x40, 0x80 + r / 0x40 % 0x40, 0x80 + r % 0x40]

/-- Go `net/http` `hexEscapeNonASCII`: every byte from `0x80` on is written as `%` followed by
the byte in base 16 (`strconv.AppendInt`, lower case), every other byte is kept. -/
def hexEscapeNonASCII (s : List Char) : List Char :=
  s.flatMap (fun c =>
    if c.toNat < 0x80 then [c]
    else (utf8Bytes c).flatMap (fun b => '%' :: Nat.toDigits 16 b))

/-- Go `url.Values`: a key maps to the list of its values. -/
abbrev Values := List (List Char × List (List Char))

/-- Go `url.Values.Get`: the first value of the key, the empty string when there is none. -/
def Values.Get (v : Values) (key : List Char) : List Char :=
  match v.lookup key with
  | some (x :: _) => x
  | _ => []

/-! ## Data model of `main.go` -/

/-- The `map[string]string` of `ContactForm.Errors`. -/
abbrev ErrorMap := List (List Char × List Char)

/-- The map assignment `m[k] = v`: the value of an existing key is overwritten, a new key is added. -/
def ErrorMap.set : ErrorMap → List Char → List Char → ErrorMap
  | [], k, v => [(k, v)]
  | (k', v') :: rest, k, v =>
    if k' = k then (k, v) :: rest else (k', v') :: ErrorMap.set rest k v

/-- The keys of the map. -/
def ErrorMap.keys (m : ErrorMap) : List (List Char) := m.map Prod.fst

/-- The map lookup `m[k]`. -/
def ErrorMap.get? (m : ErrorMap) (k : List Char) : Option (List Char) := m.lookup k

/-- The struct `ContactForm`. -/
structure ContactForm where
  Name : List Char := []
  Email : List Char := []
  Message : List Char := []
  Errors : ErrorMap := []
  deriving DecidableEq, Repr

/-- The struct `TemplateData`. -/
structure TemplateData where
  Form : ContactForm := {}
  Success : Bool := false
  deriving DecidableEq, Repr

/-- What a handler reads of an `*http.Request`: the method, the parsed URL query
(`r.URL.Query()`), and the result of `r.ParseForm()`, an error or the populated `r.Form`. -/
structure Request where
  Method : List Char
  Query : Values
  ParseForm : Except (List Char) Values

/-- The calls a handler makes, in order: on the file system and the template library
(`os.Stat`, `template.ParseFiles`, `Template.Execute` with the successive writes it made to the
response) and on the response (`http.Error`, `http.Redirect`). -/
inductive Event where
  | stat (path : List Char)
  | parseFiles (path : List Char)
  | execute (written : List (List Char))
  | httpError (msg : List Char) (code : Nat)
  | redirect (url : List Char) (code : Nat)
  deriving DecidableEq, Repr

/-- The results of the calls `renderTemplate` makes outside the program: whether `os.Stat`
fails with a not-exist error, the result of `template.ParseFiles`, and for `Template.Execute`
the successive writes it made to the response together with its error, if any. -/
structure TemplateEnv (τ α : Type) where
  statNotExist : List Char → Bool
  ParseFiles : List Char → Except (List Char) τ
  Execute : τ → α → List (List Char) × Option (List Char)

def MethodPost : List Char := "POST".toList
def StatusSeeOther : Nat := 303
def StatusBadRequest : Nat := 400
def StatusMethodNotAllowed : Nat := 405
def StatusInternalServerError : Nat := 500

/-- What the calls on an `http.ResponseWriter` leave in it: the status, fixed by the first
`WriteHeader` or `Write` (`none` while nothing fixed it), the `Location` header, and the body. -/
structure Response where
  status : Option Nat := none
  location : Option (List Char) := none
  body : List Char := []
  deriving DecidableEq, Repr

/-- Go `ResponseWriter.WriteHeader`: sets the status unless it is already fixed. -/
def Response.WriteHeader (w : Response) (code : Nat) : Response :=
  match w.status with
  | some _ => w
  | none => { w with status := some code }

/-- Go `ResponseWriter.Write`: fixes the status 200 when none is fixed yet, then adds the data to
the body. -/
def Response.Write (w : Response) (data : List Char) : Response :=
  let w := w.WriteHeader 200
  { w with body := w.body ++ data }

/-- Go `http.Error`: `WriteHeader` with the code, then the message and a newline written. -/
def Response.Error (w : Response) (msg : List Char) (code : Nat) : Response :=
  (w.WriteHeader code).Write (msg ++ ['\n'])

/-- Go `http.Redirect` on a POST request with a url that has a scheme: the `Location` header
is set to `hexEscapeNonASCII url`, then `WriteHeader` with the code; no body is written. -/
def Response.Redirect (w : Response) (url : List Char) (code : Nat) : Response :=
  ({ w with location := some (hexEscapeNonASCII url) } : Response).WriteHeader code

/-- The effect of one call on the response. -/
def Event.apply (w : Response) : Event → Response
  | .stat _ => w
  | .parseFiles _ => w
  | .execute written => written.foldl Response.Write w
  | .httpError msg code => w.Error msg code
  | .redirect url code => w.Redirect url code

/-- The response the calls of a handler leave, starting from a fresh `http.ResponseWriter`. -/
def respond (calls : List Event) : Response :=
  calls.foldl Event.apply {}

/-- The status the server sends: the one that was fixed, 200 when the handler fixed none. -/
def Response.statusCode (w : Response) : Nat :=
  w.status.getD 200

/-! ## The program -/

/-- `renderTemplate` (main.go, lines 114-133). -/
def renderTemplate {τ α : Type} (env : TemplateEnv τ α) (tmplPath : List Char) (data : α) :
    List Event :=
  if env.statNotExist tmplPath then
    [.stat tmplPath, .httpError "Template introuvable".toList StatusInternalServerError]
  else
    match env.ParseFiles tmplPath with
    | .error err =>
      [.stat tmplPath, .parseFiles tmplPath,
        .httpError (Sprintf "Erreur de parsing du template: %v".toList [err])
          StatusInternalServerError]
    | .ok tmpl =>
      match env.Execute tmpl data with
      | (written, some err) =>
        [.stat tmplPath, .parseFiles tmplPath, .execute written,
          .httpError (Sprintf "Erreur d\x27exécution du template: %v".toList [err])
            StatusInternalServerError]
      | (written, none) =>
        [.stat tmplPath, .parseFiles tmplPath, .execute written]

/-- The path of the home template, `filepath.Join("front-end", "templates", "index.html")`. -/
def tmplPath : List Char :=
  filepathJoin ["front-end".toList, "templates".toList, "index.html".toList]

/-- The view-model `homeHandler` builds (main.go, lines 56-60). -/
def homeData (r : Request) : TemplateData :=
  let success := r.Query.Get "success".toList == "true".toList
  { Form := {}, Success := success }

/-- `homeHandler` (main.go, lines 53-63). -/
def homeHandler {τ : Type} (env : TemplateEnv τ TemplateData) (r : Request) : List Event :=
  renderTemplate env tmplPath (homeData r)

/-- The form `contactHandler` builds from the parsed values (main.go, lines 78-83). -/
def newForm (form : Values) : ContactForm :=
  { Name := TrimSpace (form.Get "name".toList)
    Email := TrimSpace (form.Get "email".toList)
    Message := TrimSpace (form.Get "message".toList)
    Errors := [] }

/-- The validation of `contactHandler` (main.go, lines 86-96). -/
def validate (form : ContactForm) : ContactForm :=
  let form : ContactForm :=
    if form.Name = [] then
      { form with Errors := form.Errors.set "Name".toList "Le nom est requis".toList }
    else form
  let form : ContactForm :=
    if form.Email = [] then
      { form with Errors := form.Errors.set "Email".toList "L\x27email est requis".toList }
    else if !Contains form.Email "@".toList then
      { form with Errors := form.Errors.set "Email".toList "Email invalide".toList }
    else form
  let form : ContactForm :=
    if form.Message = [] then
      { form with Errors := form.Errors.set "Message".toList "Le message est requis".toList }
    else form
  form

/-- The mail link `contactHandler` builds (main.go, lines 106-108). -/
def mailto (form : ContactForm) : List Char :=
  Sprintf "mailto:siondigitale@gmail.com?subject=Message%%20de%%20%s&body=%s".toList
    [ReplaceAll form.Name " ".toList "%20".toList,
     ReplaceAll form.Message " ".toList "%20".toList]

/-- `contactHandler` (main.go, lines 65-111). -/
def contactHandler {τ : Type} (env : TemplateEnv τ TemplateData) (r : Request) : List Event :=
  if r.Method ≠ MethodPost then
    [.httpError "Méthode non autorisée".toList StatusMethodNotAllowed]
  else
    match r.ParseForm with
    | .error _ =>
      [.httpError "Erreur lors de la lecture du formulaire".toList StatusBadRequest]
    | .ok values =>
      let form := validate (newForm values)
      if form.Errors.length > 0 then
        renderTemplate env tmplPath ({ Form := form } : TemplateData)
      else
        [.redirect (mailto form) StatusSeeOther]

/-! ## Definitions used to state the properties -/

/-- The escaping of the mail link in the words of the specification: every space character
becomes `%20`, every other character is left unchanged. -/
def escapeSpaces (s : List Char) : List Char :=
  s.flatMap (fun c => if c = ' ' then "%20".toList else [c])

/-- The fixed beginning of the mail link. -/
def mailtoHead : List Char := "mailto:siondigitale@gmail.com?subject=Message%20de%20".toList

/-- The entries the three rules add to an empty map, rule by rule. -/
def ruleErrors (n e m : List Char) : ErrorMap :=
  (if n = [] then [("Name".toList, "Le nom est requis".toList)] else [])
    ++ (if e = [] then [("Email".toList, "L\x27email est requis".toList)]
        else if '@' ∉ e then [("Email".toList, "Email invalide".toList)] else [])
    ++ (if m = [] then [("Message".toList, "Le message est requis".toList)] else [])

/-- A submission with the three fields given once each. -/
def submission (name email message : List Char) : Values :=
  [("name".toList, [name]), ("email".toList, [email]), ("message".toList, [message])]

/-- A POST request whose form parses to the given submission. -/
def postRequest (name email message : List Char) : Request :=
  { Method := MethodPost, Query := [], ParseForm := .ok (submission name email message) }

/-- An environment in which every template exists, parses and renders the fixed page `ok`. -/
def okEnv : TemplateEnv Unit TemplateData :=
  { statNotExist := fun _ => false
    ParseFiles := fun _ => .ok ()
    Execute := fun _ _ => (["ok".toList], none) }

/-- An environment in which no template exists. -/
def missingEnv : TemplateEnv Unit TemplateData :=
  { statNotExist := fun _ => true
    ParseFiles := fun _ => .error "missing".toList
    Execute := fun _ _ => ([], none) }

/-- The environment given by the three results, the same for every path and view-model. -/
def constEnv (notExist : Bool) (parsed : Except (List Char) Unit)
    (executed : List (List Char) × Option (List Char)) : TemplateEnv Unit Unit :=
  { statNotExist := fun _ => notExist
    ParseFiles := fun _ => parsed
    Execute := fun _ _ => executed }

/-! ## Tests on concrete inputs -/

theorem test_TrimSpace : TrimSpace "  Jean Dupont \t\n".toList = "Jean Dupont".toList := by
  decide

theorem test_TrimSpace_nbsp : TrimSpace "\u00a0\u3000a b\u2003".toList = "a b".toList := by
  decide

theorem test_Contains : Contains "jean@example.com".toList "@".toList = true
    ∧ Contains "bad-email".toList "@".toList = false := by
  decide

theorem test_ReplaceAll :
    ReplaceAll "Bonjour a tous".toList " ".toList "%20".toList = "Bonjour%20a%20tous".toList
    ∧ ReplaceAll "aaa".toList "aa".toList "b".toList = "ba".toList
    ∧ ReplaceAll "ab".toList [] "-".toList = "-a-b-".toList := by
  decide

theorem test_tmplPath : tmplPath = "front-end/templates/index.html".toList := by
  decide

theorem test_mailto :
    mailto { Name := "Jean Dupont".toList, Message := "Bonjour a tous".toList }
      = "mailto:siondigitale@gmail.com?subject=Message%20de%20Jean%20Dupont&body=Bonjour%20a%20tous".toList := by
  decide

theorem test_homeData :
    (homeData { Method := "GET".toList, Query := [("success".toList, ["true".toList])],
                ParseForm := .ok [] }).Success = true
    ∧ (homeData { Method := "GET".toList, Query := [("success".toList, ["True".toList])],
                  ParseForm := .ok [] }).Success = false
    ∧ (homeData { Method := "GET".toList, Query := [("success".toList, ["1".toList])],
                  ParseForm := .ok [] }).Success = false
    ∧ (homeData { Method := "GET".toList, Query := [("success".toList, [[]])],
                  ParseForm := .ok [] }).Success = false
    ∧ (homeData { Method := "GET".toList, Query := [], ParseForm := .ok [] }).Success = false := by
  decide

theorem test_contactHandler_errors :
    contactHandler okEnv (postRequest [] "bad-email".toList [])
      = renderTemplate okEnv tmplPath
          { Form :=
              { Name := [], Email := "bad-email".toList, Message := []
                Errors :=
                  [("Name".toList, "Le nom est requis".toList),
                   ("Email".toList, "Email invalide".toList),
                   ("Message".toList, "Le message est requis".toList)] }
            Success := false } := by
  decide

/-! ## Lemmas on the library functions -/

theorem Contains_singleton (c : Char) (s : List Char) : Contains s [c] = true ↔ c ∈ s := by
  induction s with
  | nil => simp [Contains, List.isPrefixOf]
  | cons d ds ih =>
    simp only [Contains, Bool.or_eq_true, ih, List.mem_cons]
    simp [List.isPrefixOf]

theorem mem_dropWhile_of_not {p : Char → Bool} {c : Char} (hc : p c = false) :
    ∀ s : List Char, c ∈ s → c ∈ s.dropWhile p
  | [], h => by simp at h
  | d :: ds, h => by
    by_cases hd : p d = true
    · rw [List.dropWhile_cons_of_pos hd]
      rcases List.mem_cons.1 h with rfl | h
      · simp [hc] at hd
      · exact mem_dropWhile_of_not hc ds h
    · rw [List.dropWhile_cons_of_neg hd]; exact h

theorem mem_TrimSpace {c : Char} (hc : isSpace c = false) {s : List Char} (h : c ∈ s) :
    c ∈ TrimSpace s := by
  unfold TrimSpace List.rdropWhile
  rw [List.mem_reverse]
  apply mem_dropWhile_of_not hc
  rw [List.mem_reverse]
  exact mem_dropWhile_of_not hc s h

theorem TrimSpace_eq_nil_iff (s : List Char) :
    TrimSpace s = [] ↔ ∀ c ∈ s, isSpace c = true := by
  constructor
  · intro h c hc
    by_contra hsp
    have := mem_TrimSpace (Bool.eq_false_iff.2 hsp) hc
    rw [h] at this; simp at this
  · intro h
    have : s.dropWhile isSpace = [] := List.dropWhile_eq_nil_iff.2 h
    simp [TrimSpace, this]

theorem replaceFrom_single (o : Char) (new s : List Char) :
    replaceFrom [o] new 0 s = s.flatMap (fun c => if c = o then new else [c]) := by
  induction s with
  | nil => simp [replaceFrom]
  | cons d ds ih =>
    by_cases h : d = o
    · subst h
      simp [replaceFrom, List.isPrefixOf, ih]
    · have h' : ¬ o = d := fun e => h e.symm
      simp [replaceFrom, List.isPrefixOf, ih, h, h']

theorem ReplaceAll_space (s : List Char) :
    ReplaceAll s " ".toList "%20".toList = escapeSpaces s := by
  have h1 : (" ".toList = "%20".toList) = False := by decide
  have h2 : (" ".toList = []) = False := by decide
  unfold ReplaceAll escapeSpaces
  rw [if_neg (by rw [h1]; exact id), if_neg (by rw [h2]; exact id)]
  exact replaceFrom_single ' ' _ s

theorem Sprintf_mailto (a b : List Char) :
    Sprintf "mailto:siondigitale@gmail.com?subject=Message%%20de%%20%s&body=%s".toList [a, b]
      = mailtoHead ++ (a ++ ("&body=".toList ++ (b ++ []))) := by
  rfl

theorem mailto_eq (form : ContactForm) :
    mailto form
      = mailtoHead ++ escapeSpaces form.Name ++ "&body=".toList ++ escapeSpaces form.Message := by
  unfold mailto
  rw [Sprintf_mailto, ReplaceAll_space, ReplaceAll_space]
  simp

theorem Sprintf_parse (err : List Char) :
    Sprintf "Erreur de parsing du template: %v".toList [err]
      = "Erreur de parsing du template: ".toList ++ err := by
  have h : Sprintf "Erreur de parsing du template: %v".toList [err]
      = "Erreur de parsing du template: ".toList ++ (err ++ []) := rfl
  simpa using h

theorem Sprintf_exec (err : List Char) :
    Sprintf "Erreur d\x27exécution du template: %v".toList [err]
      = "Erreur d\x27exécution du template: ".toList ++ err := by
  have h : Sprintf "Erreur d\x27exécution du template: %v".toList [err]
      = "Erreur d\x27exécution du template: ".toList ++ (err ++ []) := rfl
  simpa using h

/-! ## Lemmas on the validation -/

theorem validate_Errors (n e m : List Char) :
    (validate { Name := n, Email := e, Message := m, Errors := [] }).Errors
      = ruleErrors n e m := by
  have h1 : ("Name".toList = "Email".toList) = False := by decide
  have h2 : ("Name".toList = "Message".toList) = False := by decide
  have h3 : ("Email".toList = "Message".toList) = False := by decide
  have hc : Contains e ['@'] = decide ('@' ∈ e) := by
    rw [Bool.eq_iff_iff, Contains_singleton]; simp
  by_cases hn : n = [] <;> by_cases he : e = [] <;> by_cases ha : '@' ∈ e <;>
    by_cases hm : m = [] <;>
    simp [validate, ruleErrors, ErrorMap.set, hn, he, hm, ha, hc, h1, h2, h3]

theorem validate_fields (f : ContactForm) :
    (validate f).Name = f.Name ∧ (validate f).Email = f.Email
      ∧ (validate f).Message = f.Message := by
  unfold validate
  dsimp only
  split_ifs <;> exact ⟨rfl, rfl, rfl⟩

theorem newForm_Errors (values : Values) :
    (validate (newForm values)).Errors
      = ruleErrors (TrimSpace (values.Get "name".toList))
          (TrimSpace (values.Get "email".toList)) (TrimSpace (values.Get "message".toList)) :=
  validate_Errors _ _ _

theorem ruleErrors_keys (n e m : List Char) :
    (ruleErrors n e m).keys
      = (if n = [] then ["Name".toList] else [])
        ++ (if e = [] ∨ '@' ∉ e then ["Email".toList] else [])
        ++ (if m = [] then ["Message".toList] else []) := by
  by_cases hn : n = [] <;> by_cases he : e = [] <;> by_cases ha : '@' ∈ e <;>
    by_cases hm : m = [] <;> simp [ruleErrors, ErrorMap.keys, hn, he, ha, hm]

theorem isSpace_at : isSpace '@' = false := by decide

theorem ruleErrors_eq_nil_iff (n e m : List Char) :
    ruleErrors n e m = [] ↔ n ≠ [] ∧ '@' ∈ e ∧ m ≠ [] := by
  by_cases hn : n = [] <;> by_cases he : e = [] <;> by_cases ha : '@' ∈ e <;>
    by_cases hm : m = [] <;> simp_all [ruleErrors]

theorem contactHandler_post {τ : Type} (env : TemplateEnv τ TemplateData) (r : Request)
    (values : Values) (hm : r.Method = MethodPost) (hp : r.ParseForm = .ok values) :
    contactHandler env r
      = if (validate (newForm values)).Errors.length > 0 then
          renderTemplate env tmplPath ({ Form := validate (newForm values) } : TemplateData)
        else [.redirect (mailto (validate (newForm values))) StatusSeeOther] := by
  unfold contactHandler
  rw [if_neg (not_not.2 hm), hp]

theorem renderTemplate_head {τ α : Type} (env : TemplateEnv τ α) (path : List Char) (data : α) :
    ∃ rest, renderTemplate env path data = .stat path :: rest
      ∧ ∀ ev ∈ rest, ∀ u c, ev ≠ .redirect u c := by
  unfold renderTemplate
  split
  · exact ⟨_, rfl, by simp⟩
  · split
    · exact ⟨_, rfl, by simp⟩
    · split
      · exact ⟨_, rfl, by simp⟩
      · exact ⟨_, rfl, by simp⟩

theorem ruleErrors_get_Name (n e m : List Char) (hn : n = []) :
    (ruleErrors n e m).get? "Name".toList = some "Le nom est requis".toList := by
  subst hn
  simp [ruleErrors, ErrorMap.get?, List.lookup]

theorem ruleErrors_get_Email_empty (n e m : List Char) (he : e = []) :
    (ruleErrors n e m).get? "Email".toList = some "L\x27email est requis".toList := by
  subst he
  by_cases hn : n = [] <;> simp [ruleErrors, ErrorMap.get?, List.lookup, hn]

theorem ruleErrors_get_Email_invalid (n e m : List Char) (he : e ≠ []) (ha : '@' ∉ e) :
    (ruleErrors n e m).get? "Email".toList = some "Email invalide".toList := by
  by_cases hn : n = [] <;> simp [ruleErrors, ErrorMap.get?, List.lookup, hn, he, ha]

theorem ruleErrors_get_Email_valid (n e m : List Char) (ha : '@' ∈ e) :
    (ruleErrors n e m).get? "Email".toList = none := by
  have he : e ≠ [] := List.ne_nil_of_mem ha
  by_cases hn : n = [] <;> by_cases hm : m = [] <;>
    simp [ruleErrors, ErrorMap.get?, List.lookup, hn, hm, he, ha]

theorem ruleErrors_get_Message (n e m : List Char) (hm : m = []) :
    (ruleErrors n e m).get? "Message".toList = some "Le message est requis".toList := by
  subst hm
  by_cases hn : n = [] <;> by_cases he : e = [] <;> by_cases ha : '@' ∈ e <;>
    simp [ruleErrors, ErrorMap.get?, List.lookup, hn, he, ha]

theorem escapeSpaces_no_space (s : List Char) : ' ' ∉ escapeSpaces s := by
  induction s with
  | nil => simp [escapeSpaces]
  | cons c cs ih =>
    have hcons : escapeSpaces (c :: cs)
        = (if c = ' ' then "%20".toList else [c]) ++ escapeSpaces cs := by
      simp [escapeSpaces]
    rw [hcons, List.mem_append]
    rintro (h | h)
    · by_cases hc : c = ' '
      · rw [if_pos hc] at h; revert h; decide
      · rw [if_neg hc] at h
        exact hc (List.mem_singleton.1 h).symm
    · exact ih h

theorem escapeSpaces_length (s : List Char) :
    (escapeSpaces s).length = s.length + 2 * s.count ' ' := by
  induction s with
  | nil => simp [escapeSpaces]
  | cons c cs ih =>
    have hcons : escapeSpaces (c :: cs)
        = (if c = ' ' then "%20".toList else [c]) ++ escapeSpaces cs := by
      simp [escapeSpaces]
    rw [hcons, List.length_append, ih]
    by_cases hc : c = ' '
    · subst hc
      rw [if_pos rfl, List.count_cons_self]
      have : "%20".toList.length = 3 := by decide
      rw [this, List.length_cons]; omega
    · rw [if_neg hc, List.count_cons_of_ne (fun h => hc h.symm)]
      simp only [List.length_cons, List.length_nil]; omega

theorem contactHandler_valid (τ : Type) (env : TemplateEnv τ TemplateData) (r : Request)
    (values : Values) (hm : r.Method = MethodPost) (hp : r.ParseForm = .ok values)
    (hn : TrimSpace (values.Get "name".toList) ≠ [])
    (he : '@' ∈ TrimSpace (values.Get "email".toList))
    (hmsg : TrimSpace (values.Get "message".toList) ≠ []) :
    (validate (newForm values)).Errors = []
    ∧ contactHandler env r
      = [.redirect
          ("mailto:siondigitale@gmail.com?subject=Message%20de%20".toList
            ++ escapeSpaces (TrimSpace (values.Get "name".toList))
            ++ "&body=".toList
            ++ escapeSpaces (TrimSpace (values.Get "message".toList))) 303] := by
  have hE : (validate (newForm values)).Errors = [] := by
    rw [newForm_Errors, ruleErrors_eq_nil_iff]; exact ⟨hn, he, hmsg⟩
  refine ⟨hE, ?_⟩
  rw [contactHandler_post env r values hm hp, hE, if_neg (by simp), mailto_eq,
    (validate_fields _).1, (validate_fields _).2.2]
  rfl

theorem hexEscapeNonASCII_of_ascii (s : List Char) (h : ∀ c ∈ s, c.toNat < 0x80) :
    hexEscapeNonASCII s = s := by
  induction s with
  | nil => rfl
  | cons c cs ih =>
    have hc : c.toNat < 0x80 := h c (List.mem_cons_self _ _)
    have hcs : hexEscapeNonASCII cs = cs := ih (fun d hd => h d (List.mem_cons_of_mem _ hd))
    unfold hexEscapeNonASCII at hcs ⊢
    rw [List.flatMap_cons, hcs, if_pos hc]
    rfl

theorem escapeSpaces_ascii (s : List Char) (h : ∀ c ∈ s, c.toNat < 0x80) :
    ∀ c ∈ escapeSpaces s, c.toNat < 0x80 := by
  intro c hc
  unfold escapeSpaces at hc
  obtain ⟨d, hd, hcd⟩ := List.mem_flatMap.1 hc
  by_cases hsp : d = ' '
  · rw [if_pos hsp] at hcd
    have h20 : ∀ x ∈ "%20".toList, x.toNat < 0x80 := by decide
    exact h20 c hcd
  · rw [if_neg hsp, List.mem_singleton] at hcd
    rw [hcd]; exact h d hd

theorem respond_redirect (url : List Char) (code : Nat) :
    respond [.redirect url code]
      = { status := some code, location := some (hexEscapeNonASCII url), body := [] } :=
  rfl

theorem Write_status (w : Response) (data : List Char) :
    (w.Write data).status = some (w.status.getD 200) := by
  cases w with
  | mk st loc body => cases st <;> rfl

theorem foldl_Write_status (written : List (List Char)) (w : Response) :
    (written.foldl Response.Write w).status
      = if written = [] then w.status else some (w.status.getD 200) := by
  induction written generalizing w with
  | nil => rfl
  | cons d ds ih =>
    rw [List.foldl_cons, ih, Write_status, if_neg (List.cons_ne_nil _ _)]
    by_cases h : ds = []
    · rw [if_pos h]
    · rw [if_neg h]; rfl

theorem Error_status (w : Response) (msg : List Char) (code : Nat) :
    (w.Error msg code).status = some (w.status.getD code) := by
  cases w with
  | mk st loc body => cases st <;> rfl

theorem renderTemplate_calls {τ α : Type} (env : TemplateEnv τ α) (path : List Char)
    (data : α) :
    (env.statNotExist path = true →
      renderTemplate env path data
        = [.stat path, .httpError "Template introuvable".toList 500])
    ∧ (env.statNotExist path = false → ∀ err, env.ParseFiles path = .error err →
      renderTemplate env path data
        = [.stat path, .parseFiles path,
            .httpError ("Erreur de parsing du template: ".toList ++ err) 500])
    ∧ (env.statNotExist path = false → ∀ tmpl written err, env.ParseFiles path = .ok tmpl →
      env.Execute tmpl data = (written, some err) →
      renderTemplate env path data
        = [.stat path, .parseFiles path, .execute written,
            .httpError ("Erreur d\x27exécution du template: ".toList ++ err) 500])
    ∧ (env.statNotExist path = false → ∀ tmpl written, env.ParseFiles path = .ok tmpl →
      env.Execute tmpl data = (written, none) →
      renderTemplate env path data = [.stat path, .parseFiles path, .execute written]) := by
  refine ⟨?_, ?_, ?_, ?_⟩
  · intro h
    unfold renderTemplate
    rw [if_pos h]; rfl
  · intro h err hp
    unfold renderTemplate
    rw [h, hp]
    simp only [Bool.false_eq_true, if_false]
    rw [Sprintf_parse]; rfl
  · intro h tmpl written err hp hx
    unfold renderTemplate
    rw [h, hp]
    simp only [Bool.false_eq_true, if_false]
    rw [hx]
    simp only
    rw [Sprintf_exec]; rfl
  · intro h tmpl written hp hx
    unfold renderTemplate
    rw [h, hp]
    simp only [Bool.false_eq_true, if_false]
    rw [hx]

/-- The status of the response of `renderTemplate` in its four cases: 500 when the template
does not exist and when it fails to parse; when it fails to execute, 500 only if the execution
wrote nothing, and 200 as soon as it wrote something; 200 when it renders. -/
theorem renderTemplate_statusCode {τ α : Type} (env : TemplateEnv τ α) (path : List Char)
    (data : α) :
    (env.statNotExist path = true →
      (respond (renderTemplate env path data)).statusCode = 500)
    ∧ (env.statNotExist path = false → ∀ err, env.ParseFiles path = .error err →
      (respond (renderTemplate env path data)).statusCode = 500)
    ∧ (env.statNotExist path = false → ∀ tmpl written err, env.ParseFiles path = .ok tmpl →
      env.Execute tmpl data = (written, some err) →
      (respond (renderTemplate env path data)).statusCode = if written = [] then 500 else 200)
    ∧ (env.statNotExist path = false → ∀ tmpl written, env.ParseFiles path = .ok tmpl →
      env.Execute tmpl data = (written, none) →
      (respond (renderTemplate env path data)).statusCode = 200) := by
  obtain ⟨c1, c2, c3, c4⟩ := renderTemplate_calls env path data
  refine ⟨?_, ?_, ?_, ?_⟩
  · intro h
    rw [c1 h]; rfl
  · intro h err hp
    rw [c2 h err hp]; rfl
  · intro h tmpl written err hp hx
    rw [c3 h tmpl written err hp hx]
    show (Response.Error (written.foldl Response.Write {}) _ 500).status.getD 200 = _
    rw [Error_status, foldl_Write_status]
    by_cases hw : written = []
    · rw [if_pos hw, if_pos hw]; rfl
    · rw [if_neg hw, if_neg hw]; rfl
  · intro h tmpl written hp hx
    rw [c4 h tmpl written hp hx]
    show (written.foldl Response.Write {}).status.getD 200 = _
    rw [foldl_Write_status]
    by_cases hw : written = []
    · rw [if_pos hw]; rfl
    · rw [if_neg hw]; rfl

/-! ## The claims -/

/-- C1: the errors map `contactHandler` builds from the parsed values has exactly the keys of
the failing rules, each rule evaluated on its own trimmed field: `Name` iff the trimmed name is
empty, `Email` iff the trimmed email is empty or has no `@`, `Message` iff the trimmed message
is empty, each key at most once and no other key.  A field made of white space only, the
other two being valid, gives exactly that field's key, and name `""`, email `"bad-email"`,
message `""` gives exactly the three keys. -/
theorem errors_keys_exact :
    (∀ values : Values,
      (∀ k, k ∈ (validate (newForm values)).Errors.keys ↔
        (k = "Name".toList ∧ TrimSpace (values.Get "name".toList) = [])
        ∨ (k = "Email".toList ∧ (TrimSpace (values.Get "email".toList) = []
            ∨ '@' ∉ TrimSpace (values.Get "email".toList)))
        ∨ (k = "Message".toList ∧ TrimSpace (values.Get "message".toList) = []))
      ∧ (validate (newForm values)).Errors.keys.Nodup)
    ∧ (∀ values : Values, (∀ c ∈ values.Get "name".toList, isSpace c = true) →
        '@' ∈ TrimSpace (values.Get "email".toList) →
        TrimSpace (values.Get "message".toList) ≠ [] →
        (validate (newForm values)).Errors.keys = ["Name".toList])
    ∧ (∀ values : Values, (∀ c ∈ values.Get "email".toList, isSpace c = true) →
        TrimSpace (values.Get "name".toList) ≠ [] →
        TrimSpace (values.Get "message".toList) ≠ [] →
        (validate (newForm values)).Errors.keys = ["Email".toList])
    ∧ (∀ values : Values, (∀ c ∈ values.Get "message".toList, isSpace c = true) →
        TrimSpace (values.Get "name".toList) ≠ [] →
        '@' ∈ TrimSpace (values.Get "email".toList) →
        (validate (newForm values)).Errors.keys = ["Message".toList])
    ∧ (validate (newForm (submission [] "bad-email".toList []))).Errors.keys
        = ["Name".toList, "Email".toList, "Message".toList] := by
  refine ⟨?_, ?_, ?_, ?_, by decide⟩
  · intro values
    rw [newForm_Errors, ruleErrors_keys]
    generalize TrimSpace (values.Get "name".toList) = n
    generalize TrimSpace (values.Get "email".toList) = e
    generalize TrimSpace (values.Get "message".toList) = m
    by_cases hn : n = [] <;> by_cases he : e = [] <;> by_cases ha : '@' ∈ e <;>
      by_cases hm : m = [] <;> simp [hn, he, ha, hm]
  · intro values hn ha hm
    have hn' := (TrimSpace_eq_nil_iff _).2 hn
    have he : TrimSpace (values.Get "email".toList) ≠ [] := List.ne_nil_of_mem ha
    rw [newForm_Errors, ruleErrors_keys, if_pos hn', if_neg (not_or.2 ⟨he, not_not.2 ha⟩),
      if_neg hm]
    rfl
  · intro values he hn hm
    have he' := (TrimSpace_eq_nil_iff _).2 he
    rw [newForm_Errors, ruleErrors_keys, if_neg hn, if_pos (Or.inl he'), if_neg hm]
    rfl
  · intro values hm hn ha
    have hm' := (TrimSpace_eq_nil_iff _).2 hm
    have he : TrimSpace (values.Get "email".toList) ≠ [] := List.ne_nil_of_mem ha
    rw [newForm_Errors, ruleErrors_keys, if_neg hn, if_neg (not_or.2 ⟨he, not_not.2 ha⟩),
      if_pos hm']
    rfl

/-- The white-space-only name `"  \t"` with a valid email and message gives the key `Name`
alone. -/
theorem errors_keys_exact_witness :
    (validate (newForm (submission "  \t".toList "a@b".toList "hi".toList))).Errors.keys
      = ["Name".toList] :=
  errors_keys_exact.2.1 (submission "  \t".toList "a@b".toList "hi".toList)
    (by decide) (by decide) (by decide)

/-- C2, as the specification words it, fails: for the valid submission of `José Ñu` with the
message `ça va`, the `Location` header of the redirect is not the link with spaces replaced
and nothing else changed, since `http.Redirect` writes the bytes of `é`, `Ñ` and `ç` as
`%c3%a9`, `%c3%91` and `%c3%a7`. -/
theorem valid_submission_redirect_counterexample :
    TrimSpace ((submission "José Ñu".toList "jose@example.com".toList "ça va".toList).Get
        "name".toList) ≠ []
    ∧ '@' ∈ TrimSpace ((submission "José Ñu".toList "jose@example.com".toList
        "ça va".toList).Get "email".toList)
    ∧ TrimSpace ((submission "José Ñu".toList "jose@example.com".toList "ça va".toList).Get
        "message".toList) ≠ []
    ∧ (respond (contactHandler okEnv
        (postRequest "José Ñu".toList "jose@example.com".toList "ça va".toList))).location
      = some
          "mailto:siondigitale@gmail.com?subject=Message%20de%20Jos%c3%a9%20%c3%91u&body=%c3%a7a%20va".toList
    ∧ (respond (contactHandler okEnv
        (postRequest "José Ñu".toList "jose@example.com".toList "ça va".toList))).location
      ≠ some ("mailto:siondigitale@gmail.com?subject=Message%20de%20".toList
          ++ escapeSpaces (TrimSpace "José Ñu".toList)
          ++ "&body=".toList
          ++ escapeSpaces (TrimSpace "ça va".toList)) := by
  decide

/-- C2, amended: a POST submission whose trimmed name and message are non-empty and whose
trimmed email contains `@` produces no error, and the handler makes the single call
`http.Redirect` with status 303 and the url `mailto:siondigitale@gmail.com?subject=Message%20de%20`
followed by the trimmed name, `&body=` and the trimmed message, where in both every space is
replaced by `%20` and nothing else is changed.  The response has the status 303, no body, and
as `Location` header that url with every byte of a non-ASCII character written as `%` and its
two hexadecimal digits; the header is the url itself when the trimmed name and message are
ASCII.  For Jean Dupont, `jean@example.com`, `Bonjour a tous` the url and the header are
`mailto:siondigitale@gmail.com?subject=Message%20de%20Jean%20Dupont&body=Bonjour%20a%20tous`. -/
theorem valid_submission_redirect :
    (∀ (τ : Type) (env : TemplateEnv τ TemplateData) (r : Request) (values : Values),
      r.Method = MethodPost → r.ParseForm = .ok values →
      TrimSpace (values.Get "name".toList) ≠ [] →
      '@' ∈ TrimSpace (values.Get "email".toList) →
      TrimSpace (values.Get "message".toList) ≠ [] →
      (validate (newForm values)).Errors = []
      ∧ contactHandler env r
        = [.redirect
            ("mailto:siondigitale@gmail.com?subject=Message%20de%20".toList
              ++ escapeSpaces (TrimSpace (values.Get "name".toList))
              ++ "&body=".toList
              ++ escapeSpaces (TrimSpace (values.Get "message".toList))) 303]
      ∧ respond (contactHandler env r)
        = { status := some 303
            location := some (hexEscapeNonASCII
              ("mailto:siondigitale@gmail.com?subject=Message%20de%20".toList
                ++ escapeSpaces (TrimSpace (values.Get "name".toList))
                ++ "&body=".toList
                ++ escapeSpaces (TrimSpace (values.Get "message".toList))))
            body := [] }
      ∧ ((∀ c ∈ TrimSpace (values.Get "name".toList), c.toNat < 0x80) →
          (∀ c ∈ TrimSpace (values.Get "message".toList), c.toNat < 0x80) →
          (respond (contactHandler env r)).location
            = some ("mailto:siondigitale@gmail.com?subject=Message%20de%20".toList
                ++ escapeSpaces (TrimSpace (values.Get "name".toList))
                ++ "&body=".toList
                ++ escapeSpaces (TrimSpace (values.Get "message".toList)))))
    ∧ (∀ (τ : Type) (env : TemplateEnv τ TemplateData),
        contactHandler env
            (postRequest "Jean Dupont".toList "jean@example.com".toList "Bonjour a tous".toList)
          = [.redirect
              "mailto:siondigitale@gmail.com?subject=Message%20de%20Jean%20Dupont&body=Bonjour%20a%20tous".toList
              303]
        ∧ respond (contactHandler env
            (postRequest "Jean Dupont".toList "jean@example.com".toList "Bonjour a tous".toList))
          = { status := some 303
              location := some
                "mailto:siondigitale@gmail.com?subject=Message%20de%20Jean%20Dupont&body=Bonjour%20a%20tous".toList
              body := [] }) := by
  constructor
  · intro τ env r values hm hp hn he hg
    obtain ⟨hE, hc⟩ := contactHandler_valid τ env r values hm hp hn he hg
    refine ⟨hE, hc, by rw [hc, respond_redirect], ?_⟩
    intro han ham
    rw [hc, respond_redirect]
    show some (hexEscapeNonASCII _) = some _
    rw [hexEscapeNonASCII_of_ascii]
    intro c hcm
    have h1 : ∀ x ∈ "mailto:siondigitale@gmail.com?subject=Message%20de%20".toList,
        x.toNat < 0x80 := by decide
    have h2 : ∀ x ∈ "&body=".toList, x.toNat < 0x80 := by decide
    rcases List.mem_append.1 hcm with hcm | hcm
    · rcases List.mem_append.1 hcm with hcm | hcm
      · rcases List.mem_append.1 hcm with hcm | hcm
        · exact h1 c hcm
        · exact escapeSpaces_ascii _ han c hcm
      · exact h2 c hcm
    · exact escapeSpaces_ascii _ ham c hcm
  · intro τ env
    have h := (contactHandler_valid τ env
      (postRequest "Jean Dupont".toList "jean@example.com".toList "Bonjour a tous".toList)
      (submission "Jean Dupont".toList "jean@example.com".toList "Bonjour a tous".toList)
      rfl rfl (by decide) (by decide) (by decide)).2
    rw [h]
    decide

/-- The name `"  Ana Li "`, trimmed to `Ana Li`, gives the subject `Message%20de%20Ana%20Li`,
in the url and, the name and message being ASCII, in the `Location` header. -/
theorem valid_submission_redirect_witness :
    contactHandler missingEnv
        (postRequest "  Ana Li ".toList "x@y".toList "a  b".toList)
      = [.redirect
          "mailto:siondigitale@gmail.com?subject=Message%20de%20Ana%20Li&body=a%20%20b".toList
          303]
    ∧ (respond (contactHandler missingEnv
        (postRequest "  Ana Li ".toList "x@y".toList "a  b".toList))).location
      = some
          "mailto:siondigitale@gmail.com?subject=Message%20de%20Ana%20Li&body=a%20%20b".toList := by
  have h := valid_submission_redirect.1 Unit missingEnv
    (postRequest "  Ana Li ".toList "x@y".toList "a  b".toList)
    (submission "  Ana Li ".toList "x@y".toList "a  b".toList)
    rfl rfl (by decide) (by decide) (by decide)
  refine ⟨?_, ?_⟩
  · rw [h.2.1]
    decide
  · rw [h.2.2.2 (by decide) (by decide)]
    decide

/-- C3: for a POST submission that parses, the outcome is decided by the emptiness of the
errors map alone.  The map is non-empty iff one of the three rules fails.  When it is non-empty
the handler does exactly what `renderTemplate` does on the home template with the view-model
made of the trimmed name, email and message, the errors map and `Success = false`: it adds no
call of its own, no redirect occurs, and when the template renders the response carries the
rendered output only, no status being set.  When the map is empty the handler makes the single
call `http.Redirect` with status 303 and no template call. -/
theorem outcome_by_errors {τ : Type} (env : TemplateEnv τ TemplateData) (r : Request)
    (values : Values) (hm : r.Method = MethodPost) (hp : r.ParseForm = .ok values) :
    ((validate (newForm values)).Errors ≠ [] ↔
      (TrimSpace (values.Get "name".toList) = []
        ∨ (TrimSpace (values.Get "email".toList) = []
            ∨ '@' ∉ TrimSpace (values.Get "email".toList))
        ∨ TrimSpace (values.Get "message".toList) = []))
    ∧ ((validate (newForm values)).Errors ≠ [] →
        contactHandler env r
          = renderTemplate env tmplPath
              { Form :=
                  { Name := TrimSpace (values.Get "name".toList)
                    Email := TrimSpace (values.Get "email".toList)
                    Message := TrimSpace (values.Get "message".toList)
                    Errors := (validate (newForm values)).Errors }
                Success := false }
        ∧ (∀ ev ∈ contactHandler env r, ∀ u c, ev ≠ .redirect u c)
        ∧ (∀ tmpl written, env.statNotExist tmplPath = false →
            env.ParseFiles tmplPath = .ok tmpl →
            env.Execute tmpl ({ Form := validate (newForm values) } : TemplateData)
              = (written, none) →
            contactHandler env r = [.stat tmplPath, .parseFiles tmplPath, .execute written]))
    ∧ ((validate (newForm values)).Errors = [] →
        contactHandler env r
          = [.redirect (mailto (validate (newForm values))) StatusSeeOther]) := by
  have hvm : ({ Form := validate (newForm values) } : TemplateData)
      = { Form :=
            { Name := TrimSpace (values.Get "name".toList)
              Email := TrimSpace (values.Get "email".toList)
              Message := TrimSpace (values.Get "message".toList)
              Errors := (validate (newForm values)).Errors }
          Success := false } := by
    obtain ⟨h1, h2, h3⟩ := validate_fields (newForm values)
    have : validate (newForm values)
        = { Name := TrimSpace (values.Get "name".toList)
            Email := TrimSpace (values.Get "email".toList)
            Message := TrimSpace (values.Get "message".toList)
            Errors := (validate (newForm values)).Errors } := by
      cases hv : validate (newForm values) with
      | mk a b c d =>
        rw [hv] at h1 h2 h3
        simp only at h1 h2 h3
        rw [h1, h2, h3]; rfl
    rw [← this]
  refine ⟨?_, ?_, ?_⟩
  · rw [Ne, newForm_Errors, ruleErrors_eq_nil_iff]
    generalize TrimSpace (values.Get "name".toList) = n
    generalize TrimSpace (values.Get "email".toList) = e
    generalize TrimSpace (values.Get "message".toList) = m
    constructor
    · intro h
      by_cases hn : n = []
      · exact Or.inl hn
      · by_cases ha : '@' ∈ e
        · by_cases hmm : m = []
          · exact Or.inr (Or.inr hmm)
          · exact absurd ⟨hn, ha, hmm⟩ h
        · exact Or.inr (Or.inl (Or.inr ha))
    · rintro (h | (h | h) | h) ⟨hn, ha, hmm⟩
      · exact hn h
      · rw [h] at ha; simp at ha
      · exact h ha
      · exact hmm h
  · intro hne
    have hlen : (validate (newForm values)).Errors.length > 0 := List.length_pos.2 hne
    have hc := contactHandler_post env r values hm hp
    rw [if_pos hlen] at hc
    refine ⟨by rw [hc, hvm], ?_, ?_⟩
    · rw [hc]
      obtain ⟨rest, hr, hrest⟩ := renderTemplate_head env tmplPath
        ({ Form := validate (newForm values) } : TemplateData)
      rw [hr]
      intro ev hev u c
      rcases List.mem_cons.1 hev with rfl | hev
      · simp
      · exact hrest ev hev u c
    · intro tmpl written hs hpf hex
      rw [hc]
      unfold renderTemplate
      rw [hs, hpf]
      simp only [Bool.false_eq_true, if_false]
      rw [hex]
  · intro he
    have hc := contactHandler_post env r values hm hp
    rw [he] at hc
    rw [hc, if_neg (by simp)]

/-- The submission with an empty name and message and the email `bad-email` is rendered again
with its three errors, and nothing else happens. -/
theorem outcome_by_errors_witness :
    contactHandler okEnv (postRequest [] "bad-email".toList [])
      = [.stat tmplPath, .parseFiles tmplPath, .execute ["ok".toList]] :=
  ((outcome_by_errors okEnv (postRequest [] "bad-email".toList [])
    (submission [] "bad-email".toList []) rfl rfl).2.1 (by decide)).2.2 () ["ok".toList]
    rfl rfl rfl

/-- C4: a request whose method is not exactly `POST` is answered by the single call
`http.Error` with status 405, whatever the result of parsing the body would be and whatever the
templates are: no parse result is read, no rule runs, no template call and no redirect occur.
A POST request whose form fails to parse is answered by the single call `http.Error` with
status 400: no template call and no redirect occur. -/
theorem method_and_parse_errors {τ : Type} (env : TemplateEnv τ TemplateData) (r : Request) :
    (r.Method ≠ MethodPost →
      ∀ parsed : Except (List Char) Values,
        contactHandler env { r with ParseForm := parsed }
          = [.httpError "Méthode non autorisée".toList 405])
    ∧ (r.Method = MethodPost → ∀ err, r.ParseForm = .error err →
        contactHandler env r
          = [.httpError "Erreur lors de la lecture du formulaire".toList 400]) := by
  constructor
  · intro hm parsed
    unfold contactHandler
    rw [if_pos hm]; rfl
  · intro hm err hp
    unfold contactHandler
    rw [if_neg (not_not.2 hm), hp]; rfl

/-- A `GET` request is answered 405 also when its body is malformed, and a lower-case `post`
is not `POST`. -/
theorem method_and_parse_errors_witness :
    contactHandler okEnv
        { Method := "GET".toList, Query := [], ParseForm := .error "malformed".toList }
      = [.httpError "Méthode non autorisée".toList 405]
    ∧ contactHandler okEnv
        { Method := "POST".toList, Query := [], ParseForm := .error "malformed".toList }
      = [.httpError "Erreur lors de la lecture du formulaire".toList 400] :=
  ⟨(method_and_parse_errors okEnv
      { Method := "GET".toList, Query := [], ParseForm := .ok [] }).1 (by decide)
      (.error "malformed".toList),
   (method_and_parse_errors okEnv
      { Method := "POST".toList, Query := [], ParseForm := .error "malformed".toList }).2 rfl
      "malformed".toList rfl⟩

/-- C5: the view-model `homeHandler` hands to the template has `Success = true` exactly when
the query parameter `success` has the value `true`, and its form is the empty `ContactForm`;
the handler does what `renderTemplate` does on the home template with this view-model, so
that nothing but the value of `success` enters the view-model. -/
theorem home_view_model {τ : Type} (env : TemplateEnv τ TemplateData) (r : Request) :
    ((homeData r).Success = true ↔ r.Query.Get "success".toList = "true".toList)
    ∧ (homeData r).Form = { Name := [], Email := [], Message := [], Errors := [] }
    ∧ homeHandler env r
        = renderTemplate env tmplPath
            { Form := { Name := [], Email := [], Message := [], Errors := [] }
              Success := decide (r.Query.Get "success".toList = "true".toList) } := by
  refine ⟨?_, rfl, ?_⟩
  · simp [homeData]
  · unfold homeHandler homeData
    congr 1
    show TemplateData.mk _ _ = TemplateData.mk _ _
    congr 1
    rw [Bool.eq_iff_iff, beq_iff_eq, decide_eq_true_iff]

/-- C6, as the specification words it, fails: for an empty name the message stored under
`Name` is not the text `name is required`. -/
theorem error_messages_counterexample :
    TrimSpace ((submission [] "a@b".toList "hi".toList).Get "name".toList) = []
    ∧ (validate (newForm (submission [] "a@b".toList "hi".toList))).Errors.get? "Name".toList
        ≠ some "name is required".toList := by
  decide

/-- C6, amended: the messages are the French texts of `main.go`.  An empty trimmed name stores
`Le nom est requis` under `Name`; an empty trimmed email stores `L'email est requis` under
`Email`, and otherwise a trimmed email without `@` stores `Email invalide` under `Email`; an
empty trimmed message stores `Le message est requis` under `Message`. -/
theorem error_messages (values : Values) :
    (TrimSpace (values.Get "name".toList) = [] →
      (validate (newForm values)).Errors.get? "Name".toList
        = some "Le nom est requis".toList)
    ∧ (TrimSpace (values.Get "email".toList) = [] →
      (validate (newForm values)).Errors.get? "Email".toList
        = some "L\x27email est requis".toList)
    ∧ (TrimSpace (values.Get "email".toList) ≠ [] →
      '@' ∉ TrimSpace (values.Get "email".toList) →
      (validate (newForm values)).Errors.get? "Email".toList
        = some "Email invalide".toList)
    ∧ (TrimSpace (values.Get "message".toList) = [] →
      (validate (newForm values)).Errors.get? "Message".toList
        = some "Le message est requis".toList) := by
  rw [newForm_Errors]
  exact ⟨ruleErrors_get_Name _ _ _, ruleErrors_get_Email_empty _ _ _,
    ruleErrors_get_Email_invalid _ _ _, ruleErrors_get_Message _ _ _⟩

/-- The four messages, on the submissions with everything empty and with the email `bad`. -/
theorem error_messages_witness :
    (validate (newForm (submission [] [] []))).Errors.get? "Name".toList
        = some "Le nom est requis".toList
    ∧ (validate (newForm (submission [] [] []))).Errors.get? "Email".toList
        = some "L\x27email est requis".toList
    ∧ (validate (newForm (submission [] "bad".toList []))).Errors.get? "Email".toList
        = some "Email invalide".toList
    ∧ (validate (newForm (submission [] [] []))).Errors.get? "Message".toList
        = some "Le message est requis".toList :=
  ⟨(error_messages (submission [] [] [])).1 (by decide),
   (error_messages (submission [] [] [])).2.1 (by decide),
   (error_messages (submission [] "bad".toList [])).2.2.1 (by decide) (by decide),
   (error_messages (submission [] [] [])).2.2.2 (by decide)⟩

/-- C7: the email check is the containment of `@` and nothing stricter.  A trimmed email that
is non-empty and has no `@` stores the invalid-email message under `Email`, whatever the name
and the message are; that message differs from the one stored for an empty email.  A submitted
email that contains `@` anywhere has no entry under `Email`, as for `@` alone and for ` @ `. -/
theorem weak_email_rule :
    (∀ values : Values, TrimSpace (values.Get "email".toList) ≠ [] →
      '@' ∉ TrimSpace (values.Get "email".toList) →
      (validate (newForm values)).Errors.get? "Email".toList = some "Email invalide".toList)
    ∧ (∀ values : Values, TrimSpace (values.Get "email".toList) = [] →
      (validate (newForm values)).Errors.get? "Email".toList
        = some "L\x27email est requis".toList)
    ∧ "Email invalide".toList ≠ "L\x27email est requis".toList
    ∧ (∀ values : Values, '@' ∈ values.Get "email".toList →
      (validate (newForm values)).Errors.get? "Email".toList = none
      ∧ "Email".toList ∉ (validate (newForm values)).Errors.keys)
    ∧ (∀ name message : List Char,
      "Email".toList ∉ (validate (newForm (submission name "@".toList message))).Errors.keys
      ∧ "Email".toList
          ∉ (validate (newForm (submission name " @ ".toList message))).Errors.keys) := by
  have valid : ∀ values : Values, '@' ∈ values.Get "email".toList →
      (validate (newForm values)).Errors.get? "Email".toList = none
      ∧ "Email".toList ∉ (validate (newForm values)).Errors.keys := by
    intro values h
    have ha : '@' ∈ TrimSpace (values.Get "email".toList) := mem_TrimSpace isSpace_at h
    have he : TrimSpace (values.Get "email".toList) ≠ [] := List.ne_nil_of_mem ha
    refine ⟨by rw [newForm_Errors]; exact ruleErrors_get_Email_valid _ _ _ ha, ?_⟩
    rw [newForm_Errors, ruleErrors_keys, if_neg (not_or.2 ⟨he, not_not.2 ha⟩)]
    have h1 : ("Email".toList = "Name".toList) = False := by decide
    have h2 : ("Email".toList = "Message".toList) = False := by decide
    intro hmem
    rcases List.mem_append.1 hmem with hmem | hmem
    · rcases List.mem_append.1 hmem with hmem | hmem
      · split at hmem
        · rw [List.mem_singleton, h1] at hmem; exact hmem
        · simp at hmem
      · simp at hmem
    · split at hmem
      · rw [List.mem_singleton, h2] at hmem; exact hmem
      · simp at hmem
  refine ⟨?_, ?_, by decide, valid, ?_⟩
  · intro values he ha
    rw [newForm_Errors]; exact ruleErrors_get_Email_invalid _ _ _ he ha
  · intro values he
    rw [newForm_Errors]; exact ruleErrors_get_Email_empty _ _ _ he
  · intro name message
    have hget : ∀ e : List Char, (submission name e message).Get "email".toList = e :=
      fun _ => rfl
    exact ⟨(valid (submission name "@".toList message) (by rw [hget]; decide)).2,
      (valid (submission name " @ ".toList message) (by rw [hget]; decide)).2⟩

/-- The email `not an email, really!` is invalid, the email `@@ not an email` is accepted. -/
theorem weak_email_rule_witness :
    (validate (newForm (submission "Ana".toList "not an email, really!".toList
        "hi".toList))).Errors.get? "Email".toList = some "Email invalide".toList
    ∧ (validate (newForm (submission "Ana".toList "@@ not an email".toList
        "hi".toList))).Errors.get? "Email".toList = none :=
  ⟨weak_email_rule.1 (submission "Ana".toList "not an email, really!".toList "hi".toList)
      (by decide) (by decide),
   (weak_email_rule.2.2.2.1 (submission "Ana".toList "@@ not an email".toList "hi".toList)
      (by decide)).1⟩

/-- C8 at a template that exists, parses, writes `pa` and then fails to execute with the
error `no field`: `renderTemplate` calls `http.Error` with status 500 and a message that ends
with the error text, but the write of `pa` has fixed the status 200 before, so the response has
the status 200, not 500, and its body is `pa` followed by the error message. -/
theorem render_exec_error_status :
    renderTemplate (constEnv false (.ok ()) (["pa".toList], some "no field".toList))
        "t.html".toList ()
      = [.stat "t.html".toList, .parseFiles "t.html".toList, .execute ["pa".toList],
          .httpError "Erreur d\x27exécution du template: no field".toList 500]
    ∧ (respond (renderTemplate (constEnv false (.ok ()) (["pa".toList], some "no field".toList))
        "t.html".toList ())).statusCode = 200
    ∧ (respond (renderTemplate (constEnv false (.ok ()) (["pa".toList], some "no field".toList))
        "t.html".toList ())).statusCode ≠ 500
    ∧ (respond (renderTemplate (constEnv false (.ok ()) (["pa".toList], some "no field".toList))
        "t.html".toList ())).body
      = "paErreur d\x27exécution du template: no field\n".toList := by
  decide

/-- C9: the redirect target of a valid submission is a function of the trimmed name and the
trimmed message only.  Two valid POST submissions with equal trimmed names and equal trimmed
messages are answered by the same redirect, whatever their emails and whatever the templates
are; so is the same valid submission made twice. -/
theorem redirect_target_determined {τ₁ τ₂ : Type} (env₁ : TemplateEnv τ₁ TemplateData)
    (env₂ : TemplateEnv τ₂ TemplateData) (r₁ r₂ : Request) (v₁ v₂ : Values)
    (hm₁ : r₁.Method = MethodPost) (hp₁ : r₁.ParseForm = .ok v₁)
    (hm₂ : r₂.Method = MethodPost) (hp₂ : r₂.ParseForm = .ok v₂)
    (hn₁ : TrimSpace (v₁.Get "name".toList) ≠ [])
    (he₁ : '@' ∈ TrimSpace (v₁.Get "email".toList))
    (he₂ : '@' ∈ TrimSpace (v₂.Get "email".toList))
    (hg₁ : TrimSpace (v₁.Get "message".toList) ≠ [])
    (hname : TrimSpace (v₁.Get "name".toList) = TrimSpace (v₂.Get "name".toList))
    (hmessage : TrimSpace (v₁.Get "message".toList) = TrimSpace (v₂.Get "message".toList)) :
    ∃ target, contactHandler env₁ r₁ = [.redirect target 303]
      ∧ contactHandler env₂ r₂ = [.redirect target 303]
      ∧ contactHandler env₁ r₁ = contactHandler env₂ r₂ := by
  have h₁ := (contactHandler_valid τ₁ env₁ r₁ v₁ hm₁ hp₁ hn₁ he₁ hg₁).2
  have h₂ := (contactHandler_valid τ₂ env₂ r₂ v₂ hm₂ hp₂ (hname ▸ hn₁) he₂ (hmessage ▸ hg₁)).2
  rw [← hname, ← hmessage] at h₂
  exact ⟨_, h₁, h₂, h₁.trans h₂.symm⟩

/-- Two submissions of Jean Dupont that differ in the email and in the surrounding white
space are answered by the same redirect. -/
theorem redirect_target_determined_witness :
    ∃ target,
      contactHandler okEnv
          (postRequest "Jean Dupont".toList "jean@example.com".toList "Bonjour".toList)
        = [.redirect target 303]
      ∧ contactHandler missingEnv
          (postRequest " Jean Dupont ".toList "j@d".toList "Bonjour\n".toList)
        = [.redirect target 303]
      ∧ contactHandler okEnv
          (postRequest "Jean Dupont".toList "jean@example.com".toList "Bonjour".toList)
        = contactHandler missingEnv
          (postRequest " Jean Dupont ".toList "j@d".toList "Bonjour\n".toList) :=
  redirect_target_determined okEnv missingEnv
    (postRequest "Jean Dupont".toList "jean@example.com".toList "Bonjour".toList)
    (postRequest " Jean Dupont ".toList "j@d".toList "Bonjour\n".toList)
    (submission "Jean Dupont".toList "jean@example.com".toList "Bonjour".toList)
    (submission " Jean Dupont ".toList "j@d".toList "Bonjour\n".toList)
    rfl rfl rfl rfl (by decide) (by decide) (by decide) (by decide) (by decide) (by decide)

/-- C10: the redirect target of a valid submission contains no space character, and its length
is the length of `mailto:siondigitale@gmail.com?subject=Message%20de%20&body=` plus the lengths
of the trimmed name and of the trimmed message plus twice the number of spaces in them. -/
theorem redirect_target_shape {τ : Type} (env : TemplateEnv τ TemplateData) (r : Request)
    (values : Values) (hm : r.Method = MethodPost) (hp : r.ParseForm = .ok values)
    (hn : TrimSpace (values.Get "name".toList) ≠ [])
    (he : '@' ∈ TrimSpace (values.Get "email".toList))
    (hg : TrimSpace (values.Get "message".toList) ≠ []) :
    ∃ target, contactHandler env r = [.redirect target 303]
      ∧ ' ' ∉ target
      ∧ target.length
        = "mailto:siondigitale@gmail.com?subject=Message%20de%20&body=".toList.length
          + (TrimSpace (values.Get "name".toList)).length
          + (TrimSpace (values.Get "message".toList)).length
          + 2 * ((TrimSpace (values.Get "name".toList)).count ' '
              + (TrimSpace (values.Get "message".toList)).count ' ') := by
  refine ⟨_, (contactHandler_valid τ env r values hm hp hn he hg).2, ?_, ?_⟩
  · have h1 : ' ' ∉ "mailto:siondigitale@gmail.com?subject=Message%20de%20".toList := by decide
    have h2 : ' ' ∉ "&body=".toList := by decide
    simp only [List.mem_append, not_or]
    exact ⟨⟨⟨h1, escapeSpaces_no_space _⟩, h2⟩, escapeSpaces_no_space _⟩
  · have h1 : "mailto:siondigitale@gmail.com?subject=Message%20de%20".toList.length = 53 := by
      decide
    have h2 : "&body=".toList.length = 6 := by decide
    have h3 : "mailto:siondigitale@gmail.com?subject=Message%20de%20&body=".toList.length = 59 := by
      decide
    rw [List.length_append, List.length_append, List.length_append, escapeSpaces_length,
      escapeSpaces_length, h1, h2, h3]
    omega

/-- The target for `Jean Dupont` and `Bonjour a tous` has no space and 59 + 11 + 14 + 2 * 3
characters. -/
theorem redirect_target_shape_witness :
    ∃ target,
      contactHandler okEnv
          (postRequest "Jean Dupont".toList "jean@example.com".toList "Bonjour a tous".toList)
        = [.redirect target 303]
      ∧ ' ' ∉ target ∧ target.length = 59 + 11 + 14 + 2 * (1 + 2) :=
  redirect_target_shape okEnv
    (postRequest "Jean Dupont".toList "jean@example.com".toList "Bonjour a tous".toList)
    (submission "Jean Dupont".toList "jean@example.com".toList "Bonjour a tous".toList)
    rfl rfl (by decide) (by decide) (by decide)

end SionDigitale
